import Mathlib

/-!
Verification of the disruption-fraction formula library (`disruption.py`).

The library is a set of pure real-valued formulas.  We embed it over `ℝ`:
Python `x ** (1/3)` and `x ** (1/2)` become `Real.rpow`; `np.sqrt`, which
yields NaN on a negative argument, becomes an `Option ℝ` (`none` models the
NaN result); the orbit-sense branch of `calculate_r_isco`, which has no
`else` and therefore raises `UnboundLocalError` on an unrecognized string,
becomes an `Except PyError` value.
-/

noncomputable section

/-- Kinds of Python runtime failures relevant to this module.  The source
never raises a deliberate argument-validation error; the only failure mode of
`calculate_r_isco` on a bad orbit sense is reading the never-assigned local
variable `r_isco`, which is `UnboundLocalError` in Python. -/
inductive PyError where
  | unboundLocal (name : String) : PyError
  | invalidArgument (msg : String) : PyError
deriving DecidableEq

/-- `cc.M_sun.si.value` : solar mass in kg (astropy, IAU 2015 nominal). -/
def msun_si : ℝ := 1.98840987e30

/-- `cc.G.si.value` : Newton constant in SI units (astropy, CODATA). -/
def g_si : ℝ := 6.6743e-11

/-- `cc.c.si.value` : speed of light in m/s. -/
def c_si : ℝ := 299792458

/-- `mass_conversion_constant = 0.075`, the empirical quadratic-fit
coefficient of the rest-mass / gravitational-mass relation. -/
def mass_conversion_constant : ℝ := 0.075

/-- The quantity `Z_1` of `calculate_r_isco`, with `a_tilde` inlined as
`dimensionless_spin * mass`:
`Z_1 = 1 + (1-a_tilde**2/mass**2)**(1/3) * ((1+a_tilde/mass)**(1/3) + (1-a_tilde/mass)**(1/3))`. -/
def isco_Z1 (dimensionless_spin mass : ℝ) : ℝ :=
  1 + (1 - (dimensionless_spin * mass) ^ 2 / mass ^ 2) ^ ((1 : ℝ)/3) *
      ((1 + (dimensionless_spin * mass) / mass) ^ ((1 : ℝ)/3) +
       (1 - (dimensionless_spin * mass) / mass) ^ ((1 : ℝ)/3))

/-- The quantity `Z_2` of `calculate_r_isco`:
`Z_2 = (3*a_tilde**2/mass**2 + Z_1**2)**(1/2)`. -/
def isco_Z2 (dimensionless_spin mass : ℝ) : ℝ :=
  (3 * (dimensionless_spin * mass) ^ 2 / mass ^ 2 +
    (isco_Z1 dimensionless_spin mass) ^ 2) ^ ((1 : ℝ)/2)

/-- The geometric-units ISCO radius: the local variable `r_isco` of
`calculate_r_isco` just before the SI conversion.  The source assigns it only
under `if type_=='co_rotating'` / `elif type_=='counter_rotating'`; any other
string leaves it unassigned, so line `r_isco_si = r_isco * ...` raises
`UnboundLocalError`. -/
def r_isco_geometric (dimensionless_spin mass : ℝ) (type_ : String) :
    Except PyError ℝ :=
  if type_ = "co_rotating" then
    Except.ok (mass * (3 + isco_Z2 dimensionless_spin mass -
      ((3 - isco_Z1 dimensionless_spin mass) *
        (3 + isco_Z1 dimensionless_spin mass +
          2 * isco_Z2 dimensionless_spin mass)) ^ ((1 : ℝ)/2)))
  else if type_ = "counter_rotating" then
    Except.ok (mass * (3 + isco_Z2 dimensionless_spin mass +
      ((3 - isco_Z1 dimensionless_spin mass) *
        (3 + isco_Z1 dimensionless_spin mass +
          2 * isco_Z2 dimensionless_spin mass)) ^ ((1 : ℝ)/2)))
  else
    Except.error (PyError.unboundLocal "r_isco")

/-- `calculate_r_isco`: geometric radius, converted to SI by
`r_isco_si = r_isco * msun_si * g_si / c_si ** 2`, returned in km
(`r_isco_si / 1000`). -/
def calculate_r_isco (dimensionless_spin mass : ℝ) (type_ : String) :
    Except PyError ℝ :=
  (r_isco_geometric dimensionless_spin mass type_).map
    (fun r => r * msun_si * g_si / c_si ^ 2 / 1000)

/-- `calculate_r_disruption(mbh, mns, rns) = rns*(mbh/mns)**(1/3)`. -/
def calculate_r_disruption (mbh mns rns : ℝ) : ℝ :=
  rns * (mbh / mns) ^ ((1 : ℝ)/3)

/-- `nsbh_disruption`: computes `rdis` and `risco` (with `mass=mbh`) and
returns the boolean `rdis >= risco`; a failure of `calculate_r_isco`
propagates. -/
def nsbh_disruption (mbh mns rns dimensionless_spin : ℝ) (type_ : String) :
    Except PyError Bool :=
  (calculate_r_isco dimensionless_spin mbh type_).map
    (fun risco => decide (calculate_r_disruption mbh mns rns ≥ risco))

/-- `rest_mass_from_gravitational_mass(m) = m + mass_conversion_constant * m ** 2`. -/
def rest_mass_from_gravitational_mass (gravitational_mass : ℝ) : ℝ :=
  gravitational_mass + mass_conversion_constant * gravitational_mass ^ 2

/-- `np.sqrt`, which returns NaN (here `none`) on a negative argument. -/
def np_sqrt (x : ℝ) : Option ℝ :=
  if x < 0 then none else some (Real.sqrt x)

/-- `gravitational_mass_from_rest_mass(m) =
(-1 + np.sqrt(1 + 4*mass_conversion_constant*m)) / (2*mass_conversion_constant)`;
`none` models the NaN produced when the square-root argument is negative. -/
def gravitational_mass_from_rest_mass (rest_mass : ℝ) : Option ℝ :=
  (np_sqrt (1 + 4 * mass_conversion_constant * rest_mass)).map
    (fun s => (-1 + s) / (2 * mass_conversion_constant))

/-- `total_gravitational_mass`: rest masses of both components, summed, minus
`ejecta_mass` (source default `0.05`), converted back to gravitational mass. -/
def total_gravitational_mass (gravitational_mass_1 gravitational_mass_2 ejecta_mass : ℝ) :
    Option ℝ :=
  gravitational_mass_from_rest_mass
    (rest_mass_from_gravitational_mass gravitational_mass_1 +
     rest_mass_from_gravitational_mass gravitational_mass_2 - ejecta_mass)

/-- `bns_disruption(m1, m2, mtov, ejecta_mass)`: remnant mass via
`total_gravitational_mass`, then the boolean `remnant_mass >= 1.2 * mtov`. -/
def bns_disruption (m1 m2 mtov ejecta_mass : ℝ) : Option Bool :=
  (total_gravitational_mass m1 m2 ejecta_mass).map
    (fun remnant_mass => decide (remnant_mass ≥ 1.2 * mtov))

/-! ### Helper lemmas -/

lemma rpow_half_eq_sqrt (x : ℝ) : x ^ ((1 : ℝ)/2) = Real.sqrt x :=
  (Real.sqrt_eq_rpow x).symm

lemma sq_rpow_half (a : ℝ) (ha : 0 ≤ a) : ((a ^ 2 : ℝ)) ^ ((1 : ℝ)/2) = a := by
  rw [rpow_half_eq_sqrt, Real.sqrt_sq ha]

lemma k_pos : (0 : ℝ) < mass_conversion_constant := by
  norm_num [mass_conversion_constant]

lemma r_isco_geometric_co (dimensionless_spin mass : ℝ) :
    r_isco_geometric dimensionless_spin mass "co_rotating" =
      Except.ok (mass * (3 + isco_Z2 dimensionless_spin mass -
        ((3 - isco_Z1 dimensionless_spin mass) *
          (3 + isco_Z1 dimensionless_spin mass +
            2 * isco_Z2 dimensionless_spin mass)) ^ ((1 : ℝ)/2))) := rfl

lemma r_isco_geometric_counter (dimensionless_spin mass : ℝ) :
    r_isco_geometric dimensionless_spin mass "counter_rotating" =
      Except.ok (mass * (3 + isco_Z2 dimensionless_spin mass +
        ((3 - isco_Z1 dimensionless_spin mass) *
          (3 + isco_Z1 dimensionless_spin mass +
            2 * isco_Z2 dimensionless_spin mass)) ^ ((1 : ℝ)/2))) := rfl

lemma calculate_r_isco_co (dimensionless_spin mass : ℝ) :
    calculate_r_isco dimensionless_spin mass "co_rotating" =
      Except.ok ((mass * (3 + isco_Z2 dimensionless_spin mass -
        ((3 - isco_Z1 dimensionless_spin mass) *
          (3 + isco_Z1 dimensionless_spin mass +
            2 * isco_Z2 dimensionless_spin mass)) ^ ((1 : ℝ)/2))) *
        msun_si * g_si / c_si ^ 2 / 1000) := rfl

lemma calculate_r_isco_counter (dimensionless_spin mass : ℝ) :
    calculate_r_isco dimensionless_spin mass "counter_rotating" =
      Except.ok ((mass * (3 + isco_Z2 dimensionless_spin mass +
        ((3 - isco_Z1 dimensionless_spin mass) *
          (3 + isco_Z1 dimensionless_spin mass +
            2 * isco_Z2 dimensionless_spin mass)) ^ ((1 : ℝ)/2))) *
        msun_si * g_si / c_si ^ 2 / 1000) := rfl

lemma isco_Z1_zero (M : ℝ) : isco_Z1 0 M = 3 := by
  simp [isco_Z1, Real.one_rpow]
  norm_num

lemma isco_Z2_zero (M : ℝ) : isco_Z2 0 M = 3 := by
  rw [isco_Z2, isco_Z1_zero]
  norm_num
  rw [show ((9 : ℝ)) = 3 ^ 2 by norm_num, sq_rpow_half 3 (by norm_num)]

/-! ### Claim theorems -/

/-- Claim C1: for every black-hole mass, NS mass, NS radius, spin and
recognized orbit sense, `nsbh_disruption` succeeds and returns exactly the
boolean comparison of the tidal disruption radius against the ISCO radius
computed with `mass = mbh`. -/
theorem nsbh_disruption_spec (mbh mns rns dimensionless_spin : ℝ) (type_ : String)
    (h : type_ = "co_rotating" ∨ type_ = "counter_rotating") :
    ∃ risco : ℝ, calculate_r_isco dimensionless_spin mbh type_ = Except.ok risco ∧
      nsbh_disruption mbh mns rns dimensionless_spin type_ =
        Except.ok (decide (calculate_r_disruption mbh mns rns ≥ risco)) := by
  rcases h with h | h <;> subst h
  · exact ⟨_, calculate_r_isco_co dimensionless_spin mbh, rfl⟩
  · exact ⟨_, calculate_r_isco_counter dimensionless_spin mbh, rfl⟩

/-- Witness for C1 at the spec test point `mbh=5, mns=1.4, rns=11, spin=0,
co-rotating orbit`. -/
theorem nsbh_disruption_spec_witness :
    ∃ risco : ℝ, calculate_r_isco 0 5 "co_rotating" = Except.ok risco ∧
      nsbh_disruption 5 1.4 11 0 "co_rotating" =
        Except.ok (decide (calculate_r_disruption 5 1.4 11 ≥ risco)) :=
  nsbh_disruption_spec 5 1.4 11 0 "co_rotating" (Or.inl rfl)

/-- Claim C2: `bns_disruption m1 m2 mtov ejecta_mass` returns `true` exactly
when the remnant mass, computed by converting both gravitational masses to
rest mass, summing, subtracting the ejecta mass and converting back, exists
and is at least `1.2 * mtov`. -/
theorem bns_disruption_spec (m1 m2 mtov ejecta_mass : ℝ) :
    bns_disruption m1 m2 mtov ejecta_mass = some true ↔
      ∃ remnant : ℝ,
        gravitational_mass_from_rest_mass
          (rest_mass_from_gravitational_mass m1 +
           rest_mass_from_gravitational_mass m2 - ejecta_mass) = some remnant ∧
        remnant ≥ 1.2 * mtov := by
  unfold bns_disruption total_gravitational_mass
  cases h : gravitational_mass_from_rest_mass
      (rest_mass_from_gravitational_mass m1 +
       rest_mass_from_gravitational_mass m2 - ejecta_mass) with
  | none => simp [h]
  | some r => simp [h]

/-- Claim C3: the forward round trip is exact on the nonnegative domain:
converting a gravitational mass to rest mass and back returns the input. -/
theorem mass_roundtrip (x : ℝ) (hx : 0 ≤ x) :
    gravitational_mass_from_rest_mass (rest_mass_from_gravitational_mass x) =
      some x := by
  have hk := k_pos
  have key : 1 + 4 * mass_conversion_constant *
      (x + mass_conversion_constant * x ^ 2) =
      (1 + 2 * mass_conversion_constant * x) ^ 2 := by ring
  have hpos : 0 ≤ 1 + 2 * mass_conversion_constant * x := by
    nlinarith [mul_nonneg hk.le hx]
  have hk2 : (2 : ℝ) * mass_conversion_constant ≠ 0 := by positivity
  simp only [gravitational_mass_from_rest_mass, rest_mass_from_gravitational_mass,
    np_sqrt, key, if_neg (not_lt.mpr (sq_nonneg (1 + 2 * mass_conversion_constant * x))),
    Option.map_some', Real.sqrt_sq hpos]
  congr 1
  field_simp

/-- Witness for C3 at `x = 2`. -/
theorem mass_roundtrip_witness :
    gravitational_mass_from_rest_mass (rest_mass_from_gravitational_mass 2) =
      some 2 :=
  mass_roundtrip 2 (by norm_num)

/-- Claim C9: the reverse round trip is also exact on the nonnegative domain,
so the conversion pair is a two-sided inverse there. -/
theorem mass_reverse_roundtrip (y : ℝ) (hy : 0 ≤ y) :
    (gravitational_mass_from_rest_mass y).map rest_mass_from_gravitational_mass =
      some y := by
  have hk := k_pos
  have harg : 0 ≤ 1 + 4 * mass_conversion_constant * y := by
    nlinarith [mul_nonneg hk.le hy]
  have hs := Real.sq_sqrt harg
  have hk2 : (2 : ℝ) * mass_conversion_constant ≠ 0 := by positivity
  simp only [gravitational_mass_from_rest_mass, np_sqrt, if_neg (not_lt.mpr harg),
    Option.map_some', rest_mass_from_gravitational_mass]
  congr 1
  set s := Real.sqrt (1 + 4 * mass_conversion_constant * y) with hsdef
  have expand : (-1 + s) / (2 * mass_conversion_constant) +
      mass_conversion_constant *
        ((-1 + s) / (2 * mass_conversion_constant)) ^ 2 =
      (s ^ 2 - 1) / (4 * mass_conversion_constant) := by
    field_simp
    ring
  rw [expand, hs]
  field_simp

/-- Witness for C9 at `y = 2`. -/
theorem mass_reverse_roundtrip_witness :
    (gravitational_mass_from_rest_mass 2).map rest_mass_from_gravitational_mass =
      some 2 :=
  mass_reverse_roundtrip 2 (by norm_num)

/-- Claim C8: when the rest mass is below `-1/(4k)` the discriminant
`1 + 4*k*rest_mass` is negative, `np.sqrt` yields NaN (modelled `none`), and
`gravitational_mass_from_rest_mass` returns no well-formed numeric value. -/
theorem grav_mass_negative_discriminant (rest_mass : ℝ)
    (h : rest_mass < -1 / (4 * mass_conversion_constant)) :
    gravitational_mass_from_rest_mass rest_mass = none := by
  have hk := k_pos
  have h4 : (0 : ℝ) < 4 * mass_conversion_constant := by positivity
  have h2 : rest_mass * (4 * mass_conversion_constant) < -1 := (lt_div_iff₀ h4).mp h
  have hneg : 1 + 4 * mass_conversion_constant * rest_mass < 0 := by nlinarith
  simp only [gravitational_mass_from_rest_mass, np_sqrt, if_pos hneg,
    Option.map_none']

/-- Witness for C8 at `rest_mass = -10`. -/
theorem grav_mass_negative_discriminant_witness :
    gravitational_mass_from_rest_mass (-10) = none :=
  grav_mass_negative_discriminant (-10) (by norm_num [mass_conversion_constant])

/-- Claim C4: on an unrecognized orbit sense such as `"sideways"`, neither
branch of the if/elif assigns the local `r_isco`, so the conversion line
raises `UnboundLocalError`; the same error propagates out of
`nsbh_disruption`.  The source never raises an argument-validation error. -/
theorem r_isco_invalid_sense :
    calculate_r_isco 0 1 "sideways" =
      Except.error (PyError.unboundLocal "r_isco") ∧
    nsbh_disruption 1 1.4 11 0 "sideways" =
      Except.error (PyError.unboundLocal "r_isco") := by
  constructor <;> rfl

lemma calculate_r_isco_of_geometric (dimensionless_spin mass : ℝ) (type_ : String)
    (r : ℝ) (h : r_isco_geometric dimensionless_spin mass type_ = Except.ok r) :
    calculate_r_isco dimensionless_spin mass type_ =
      Except.ok (r * msun_si * g_si / c_si ^ 2 / 1000) := by
  unfold calculate_r_isco
  rw [h]
  rfl

lemma r_isco_geometric_zero_co (M : ℝ) :
    r_isco_geometric 0 M "co_rotating" = Except.ok (6 * M) := by
  rw [r_isco_geometric_co, isco_Z1_zero, isco_Z2_zero]
  rw [show ((3 : ℝ) - 3) * (3 + 3 + 2 * 3) = 0 by norm_num,
    Real.zero_rpow (by norm_num : ((1 : ℝ)/2) ≠ 0)]
  norm_num [mul_comm]

lemma r_isco_geometric_zero_counter (M : ℝ) :
    r_isco_geometric 0 M "counter_rotating" = Except.ok (6 * M) := by
  rw [r_isco_geometric_counter, isco_Z1_zero, isco_Z2_zero]
  rw [show ((3 : ℝ) - 3) * (3 + 3 + 2 * 3) = 0 by norm_num,
    Real.zero_rpow (by norm_num : ((1 : ℝ)/2) ≠ 0)]
  norm_num [mul_comm]

/-- Claim C5: at spin `0` and for either recognized orbit sense, the
geometric ISCO radius is `6*M`, the returned value is
`6*M * msun_si * g_si / c_si^2 / 1000` km, and the two orbit senses give the
same result. -/
theorem r_isco_schwarzschild (M : ℝ) (type_ : String) (hM : 0 < M)
    (ht : type_ = "co_rotating" ∨ type_ = "counter_rotating") :
    r_isco_geometric 0 M type_ = Except.ok (6 * M) ∧
    calculate_r_isco 0 M type_ =
      Except.ok (6 * M * msun_si * g_si / c_si ^ 2 / 1000) ∧
    calculate_r_isco 0 M "co_rotating" = calculate_r_isco 0 M "counter_rotating" := by
  have hco := calculate_r_isco_of_geometric 0 M "co_rotating" (6 * M)
    (r_isco_geometric_zero_co M)
  have hcounter := calculate_r_isco_of_geometric 0 M "counter_rotating" (6 * M)
    (r_isco_geometric_zero_counter M)
  rcases ht with h | h <;> subst h
  · exact ⟨r_isco_geometric_zero_co M, hco, hco.trans hcounter.symm⟩
  · exact ⟨r_isco_geometric_zero_counter M, hcounter, hco.trans hcounter.symm⟩

/-- Witness for C5 at `M = 2`, co-rotating. -/
theorem r_isco_schwarzschild_witness :
    r_isco_geometric 0 2 "co_rotating" = Except.ok (6 * 2) ∧
    calculate_r_isco 0 2 "co_rotating" =
      Except.ok (6 * 2 * msun_si * g_si / c_si ^ 2 / 1000) ∧
    calculate_r_isco 0 2 "co_rotating" = calculate_r_isco 0 2 "counter_rotating" :=
  r_isco_schwarzschild 2 "co_rotating" (by norm_num) (Or.inl rfl)

lemma isco_Z1_one (M : ℝ) (hM : M ≠ 0) : isco_Z1 1 M = 1 := by
  have h1 : ((1 : ℝ) * M) ^ 2 / M ^ 2 = 1 := by
    rw [one_mul]
    exact div_self (pow_ne_zero 2 hM)
  have h2 : (1 : ℝ) * M / M = 1 := by
    rw [one_mul]
    exact div_self hM
  rw [isco_Z1, h1, h2]
  rw [show ((1 : ℝ) - 1) = 0 by norm_num,
    Real.zero_rpow (by norm_num : ((1 : ℝ)/3) ≠ 0)]
  ring

lemma isco_Z2_one (M : ℝ) (hM : M ≠ 0) : isco_Z2 1 M = 2 := by
  have h1 : 3 * ((1 : ℝ) * M) ^ 2 / M ^ 2 = 3 := by
    rw [one_mul, mul_div_assoc, div_self (pow_ne_zero 2 hM), mul_one]
  rw [isco_Z2, isco_Z1_one M hM, h1]
  rw [show (3 : ℝ) + 1 ^ 2 = 2 ^ 2 by norm_num, sq_rpow_half 2 (by norm_num)]

/-- Claim C6: at extremal spin `1` the geometric ISCO radius is `M` for the
co-rotating sense and `9*M` for the counter-rotating sense. -/
theorem r_isco_extremal (M : ℝ) (hM : 0 < M) :
    r_isco_geometric 1 M "co_rotating" = Except.ok M ∧
    r_isco_geometric 1 M "counter_rotating" = Except.ok (9 * M) := by
  have hZ1 := isco_Z1_one M hM.ne'
  have hZ2 := isco_Z2_one M hM.ne'
  have hroot : (((3 : ℝ) - 1) * (3 + 1 + 2 * 2)) ^ ((1 : ℝ)/2) = 4 := by
    rw [show ((3 : ℝ) - 1) * (3 + 1 + 2 * 2) = 4 ^ 2 by norm_num,
      sq_rpow_half 4 (by norm_num)]
  constructor
  · rw [r_isco_geometric_co, hZ1, hZ2, hroot]
    norm_num
  · rw [r_isco_geometric_counter, hZ1, hZ2, hroot]
    norm_num [mul_comm]

/-- Witness for C6 at `M = 2`. -/
theorem r_isco_extremal_witness :
    r_isco_geometric 1 2 "co_rotating" = Except.ok 2 ∧
    r_isco_geometric 1 2 "counter_rotating" = Except.ok (9 * 2) :=
  r_isco_extremal 2 (by norm_num)

/-- Claim C7: with positive masses and radius, `calculate_r_disruption` is
strictly increasing in the black-hole mass and strictly decreasing in the
neutron-star mass, the other arguments held fixed. -/
theorem r_disruption_monotone (mbh mns rns a b : ℝ)
    (hbh : 0 < mbh) (hns : 0 < mns) (hr : 0 < rns) (hb : 0 < b) :
    (mbh < a →
      calculate_r_disruption mbh mns rns < calculate_r_disruption a mns rns) ∧
    (b < mns →
      calculate_r_disruption mbh mns rns < calculate_r_disruption mbh b rns) := by
  constructor
  · intro hlt
    unfold calculate_r_disruption
    have hq : mbh / mns < a / mns := (div_lt_div_iff_of_pos_right hns).mpr hlt
    exact mul_lt_mul_of_pos_left
      (Real.rpow_lt_rpow (le_of_lt (div_pos hbh hns)) hq (by norm_num)) hr
  · intro hlt
    unfold calculate_r_disruption
    have hq : mbh / mns < mbh / b := div_lt_div_of_pos_left hbh hb hlt
    exact mul_lt_mul_of_pos_left
      (Real.rpow_lt_rpow (le_of_lt (div_pos hbh hns)) hq (by norm_num)) hr

/-- Witness for C7: `r_disruption` grows from `mbh = 1` to `mbh = 8` and
grows when `mns` shrinks from `2` to `1`. -/
theorem r_disruption_monotone_witness :
    calculate_r_disruption 1 2 3 < calculate_r_disruption 8 2 3 ∧
    calculate_r_disruption 1 2 3 < calculate_r_disruption 1 1 3 :=
  ⟨(r_disruption_monotone 1 2 3 8 1 (by norm_num) (by norm_num) (by norm_num)
      (by norm_num)).1 (by norm_num),
   (r_disruption_monotone 1 2 3 8 1 (by norm_num) (by norm_num) (by norm_num)
      (by norm_num)).2 (by norm_num)⟩

lemma isco_Z1_scale (chi M : ℝ) (hM : M ≠ 0) : isco_Z1 chi M = isco_Z1 chi 1 := by
  have h1 : (chi * M) ^ 2 / M ^ 2 = chi ^ 2 := by
    rw [mul_pow, mul_div_assoc, div_self (pow_ne_zero 2 hM), mul_one]
  have h2 : chi * M / M = chi := by
    rw [mul_div_assoc, div_self hM, mul_one]
  rw [isco_Z1, isco_Z1, h1, h2]
  norm_num

lemma isco_Z2_scale (chi M : ℝ) (hM : M ≠ 0) : isco_Z2 chi M = isco_Z2 chi 1 := by
  have h1 : 3 * (chi * M) ^ 2 / M ^ 2 = 3 * chi ^ 2 := by
    field_simp
    ring
  rw [isco_Z2, isco_Z2, isco_Z1_scale chi M hM, h1]
  norm_num

/-- Claim C10: the ISCO radius is linear in the mass: for `M > 0`, any spin
and either recognized orbit sense, `calculate_r_isco chi M` equals `M` times
`calculate_r_isco chi 1`, because `a_tilde/mass` reduces to the spin so `Z_1`
and `Z_2` are mass-independent. -/
theorem r_isco_scaling (chi M : ℝ) (type_ : String) (hM : 0 < M)
    (ht : type_ = "co_rotating" ∨ type_ = "counter_rotating") :
    ∃ r1 : ℝ, calculate_r_isco chi 1 type_ = Except.ok r1 ∧
      calculate_r_isco chi M type_ = Except.ok (M * r1) := by
  have hZ1 := isco_Z1_scale chi M hM.ne'
  have hZ2 := isco_Z2_scale chi M hM.ne'
  rcases ht with h | h <;> subst h
  · refine ⟨_, calculate_r_isco_co chi 1, ?_⟩
    rw [calculate_r_isco_co, hZ1, hZ2]
    congr 1
    ring
  · refine ⟨_, calculate_r_isco_counter chi 1, ?_⟩
    rw [calculate_r_isco_counter, hZ1, hZ2]
    congr 1
    ring

/-- Witness for C10 at `chi = 0.5`, `M = 2`, counter-rotating. -/
theorem r_isco_scaling_witness :
    ∃ r1 : ℝ, calculate_r_isco 0.5 1 "counter_rotating" = Except.ok r1 ∧
      calculate_r_isco 0.5 2 "counter_rotating" = Except.ok (2 * r1) :=
  r_isco_scaling 0.5 2 "counter_rotating" (by norm_num) (Or.inr rfl)

end
